import Mathlib

/-!
Verification of the railroad-runners realtime driver (src/src/main.rs).

The driver launches an external game process, writes it a seed line, and runs
three concurrent tasks: an output relay (`print_thread`), a tick driver
(`tick_thread`) and an input relay (`input_thread`).  Below, each Rust
function's pure logic is embedded as a Lean definition; `f64` arithmetic in
the tick-cadence formula is idealised over the reals, stateful loops become
functions over explicit schedules (lists of observations), and panics or
I/O failures become `Option`/`Except`/flags.
-/

namespace RailroadRunners

/-! ### Tick cadence (main.rs lines 13, 68-70)

Rust:
  const GAME_SPEED_MULTIPLIER: f64 = 1.2;
  const BASE: f64 = 10.0;
  let num = f64::log(if elapsed < BASE { BASE } else { elapsed }, BASE);
  let time_to_sleep = f64::min(1.0, GAME_SPEED_MULTIPLIER / num);

`f64::log(x, b)` is the base-`b` logarithm, i.e. `Real.logb b x`. -/

def GAME_SPEED_MULTIPLIER : ℝ := 1.2

def BASE : ℝ := 10.0

noncomputable def num (elapsed : ℝ) : ℝ :=
  Real.logb BASE (if elapsed < BASE then BASE else elapsed)

noncomputable def time_to_sleep (elapsed : ℝ) : ℝ :=
  min 1.0 (GAME_SPEED_MULTIPLIER / num elapsed)

/-- Reference cadence definition, written from the spec's words:
`sleepSeconds = min(1.0, SPEED_MULTIPLIER / log_10(max(e, 10.0)))`. -/
noncomputable def sleepSecondsRef (e : ℝ) : ℝ :=
  min 1.0 (GAME_SPEED_MULTIPLIER / Real.logb 10 (max e 10))

lemma BASE_eq : BASE = 10 := by norm_num [BASE]

lemma num_of_lt {e : ℝ} (h : e < 10) : num e = 1 := by
  rw [num, BASE_eq, if_pos h]
  exact Real.logb_self_eq_one (by norm_num)

lemma num_of_ge {e : ℝ} (h : 10 ≤ e) : num e = Real.logb 10 e := by
  rw [num, BASE_eq, if_neg (not_lt.mpr h)]

lemma one_le_num (e : ℝ) : 1 ≤ num e := by
  rcases lt_or_le e 10 with h | h
  · rw [num_of_lt h]
  · rw [num_of_ge h]
    calc (1 : ℝ) = Real.logb 10 10 := (Real.logb_self_eq_one (by norm_num)).symm
    _ ≤ Real.logb 10 e := Real.logb_le_logb_of_le (by norm_num) (by norm_num) h

lemma num_pos (e : ℝ) : 0 < num e := lt_of_lt_of_le one_pos (one_le_num e)

lemma logb_ten_hundred : Real.logb 10 100 = 2 := by
  have h : (100 : ℝ) = 10 ^ (2 : ℕ) := by norm_num
  rw [h, Real.logb_pow, Real.logb_self_eq_one (by norm_num)]
  norm_num

lemma logb_ten_tenthousand : Real.logb 10 10000 = 4 := by
  have h : (10000 : ℝ) = 10 ^ (4 : ℕ) := by norm_num
  rw [h, Real.logb_pow, Real.logb_self_eq_one (by norm_num)]
  norm_num

/-- C1: the tick cadence computed by the tick driver equals the reference
definition `min(1.0, SPEED_MULTIPLIER / log_10(max(e, 10.0)))` for every
elapsed `e ≥ 0`; for `e ≤ 10.0` the sleep is exactly `1.0`; at `e = 100.0`
(with multiplier 1.2) it is `0.6`, and at `e = 10000.0` it is `0.3`. -/
theorem tick_cadence_matches_reference :
    (∀ e : ℝ, 0 ≤ e → time_to_sleep e = sleepSecondsRef e) ∧
    (∀ e : ℝ, 0 ≤ e → e ≤ 10 → time_to_sleep e = 1) ∧
    time_to_sleep 100 = 0.6 ∧ time_to_sleep 10000 = 0.3 := by
  refine ⟨fun e _ => ?_, fun e _ h => ?_, ?_, ?_⟩
  · rw [time_to_sleep, sleepSecondsRef, num, BASE_eq]
    rcases lt_or_le e 10 with h | h
    · rw [if_pos h, max_eq_right h.le]
    · rw [if_neg (not_lt.mpr h), max_eq_left h]
  · rcases lt_or_le e 10 with h10 | h10
    · rw [time_to_sleep, num_of_lt h10, GAME_SPEED_MULTIPLIER]
      norm_num
    · have he : e = 10 := le_antisymm h h10
      rw [time_to_sleep, he, num_of_ge le_rfl,
        Real.logb_self_eq_one (by norm_num), GAME_SPEED_MULTIPLIER]
      norm_num
  · rw [time_to_sleep, num_of_ge (by norm_num), logb_ten_hundred,
      GAME_SPEED_MULTIPLIER]
    norm_num
  · rw [time_to_sleep, num_of_ge (by norm_num), logb_ten_tenthousand,
      GAME_SPEED_MULTIPLIER]
    norm_num

/-- Witness for C1 at concrete elapsed times. -/
theorem tick_cadence_matches_reference_witness :
    time_to_sleep 5 = sleepSecondsRef 5 ∧ time_to_sleep 5 = 1 :=
  ⟨tick_cadence_matches_reference.1 5 (by norm_num),
   tick_cadence_matches_reference.2.1 5 (by norm_num) (by norm_num)⟩

/-- C2: the sleep interval is antitone in elapsed time: for `e1 < e2` both
at least `10.0`, `time_to_sleep e2 ≤ time_to_sleep e1`. -/
theorem tick_cadence_antitone (e1 e2 : ℝ) (h1 : 10 ≤ e1) (h2 : 10 ≤ e2)
    (h12 : e1 < e2) : time_to_sleep e2 ≤ time_to_sleep e1 := by
  rw [time_to_sleep, time_to_sleep, num_of_ge h1, num_of_ge h2]
  refine min_le_min le_rfl ?_
  have hpos1 : (0 : ℝ) < Real.logb 10 e1 := by
    calc (0 : ℝ) < 1 := one_pos
    _ = Real.logb 10 10 := (Real.logb_self_eq_one (by norm_num)).symm
    _ ≤ Real.logb 10 e1 := Real.logb_le_logb_of_le (by norm_num) (by norm_num) h1
  have hmono : Real.logb 10 e1 ≤ Real.logb 10 e2 :=
    Real.logb_le_logb_of_le (by norm_num) (by linarith) h12.le
  exact div_le_div_of_nonneg_left (by norm_num [GAME_SPEED_MULTIPLIER]) hpos1 hmono

/-- Witness for C2 at elapsed times 10 and 100. -/
theorem tick_cadence_antitone_witness :
    time_to_sleep 100 ≤ time_to_sleep 10 :=
  tick_cadence_antitone 10 100 (by norm_num) (by norm_num) (by norm_num)

/-- C3: for every elapsed `e ≥ 0`, the computed sleep satisfies
`0 < time_to_sleep e ≤ 1.0`. -/
theorem tick_cadence_bounds (e : ℝ) (he : 0 ≤ e) :
    0 < time_to_sleep e ∧ time_to_sleep e ≤ 1 := by
  have h1 : (1.0 : ℝ) = 1 := by norm_num
  constructor
  · rw [time_to_sleep, h1]
    refine lt_min one_pos (div_pos ?_ (num_pos e))
    norm_num [GAME_SPEED_MULTIPLIER]
  · rw [time_to_sleep, h1]
    exact min_le_left _ _

/-- Witness for C3 at elapsed time 0. -/
theorem tick_cadence_bounds_witness :
    0 < time_to_sleep 0 ∧ time_to_sleep 0 ≤ 1 :=
  tick_cadence_bounds 0 le_rfl

/-! ### Input relay (main.rs lines 79-102)

Rust:
  const VALID_CHARS: &[char] = &['w', 'a', 's', 'd', 'q'];
  loop: read a char; if it is in VALID_CHARS, write `format!("{}\n", input)`
  to the shared stdin, and break the loop if that write returns Err.

The loop is embedded as a function over a finite schedule of observations,
one per iteration: the keystroke read and whether the forwarding write would
succeed.  The result is the list of lines successfully written to the
child's input stream (liveness is taken as false throughout; observing it
true merely truncates the schedule). -/

def VALID_CHARS : List Char := ['w', 'a', 's', 'd', 'q']

def input_loop : List (Char × Bool) → List String
  | [] => []
  | (c, ok) :: rest =>
    if c ∈ VALID_CHARS then
      if ok then String.mk [c, '\n'] :: input_loop rest
      else []
    else input_loop rest

/-! ### Tick driver writes (main.rs lines 58-63)

Rust: each loop iteration first checks `game_thread.is_finished()` and
breaks when true, otherwise executes `stdin.write_all(b"\'\n")`.  The byte
string is the two bytes 0x27 (ASCII apostrophe) and 0x0A (newline).  The
loop is embedded over the schedule of successive liveness observations. -/

def tickWrite : List Nat := [0x27, 0x0A]

def tick_writes : List Bool → List (List Nat)
  | [] => []
  | true :: _ => []
  | false :: rest => tickWrite :: tick_writes rest

/-! ### Elapsed-time computation (main.rs lines 65-66)

Rust: `now.duration_since(*start_time).unwrap()`.  `duration_since` returns
`Err` exactly when `now` is earlier than `start_time`, and `.unwrap()` then
panics; `none` models that panic. -/

noncomputable def elapsed_since (now start : ℝ) : Option ℝ :=
  if now < start then none else some (now - start)

/-! ### Output relay (main.rs lines 47-51)

Rust: `for line in stdout.lines() { println!("{}", line.unwrap()) }`.
The stream is a list of line-read results (`Except.error` is a read that
fails, e.g. invalid UTF-8).  The result is the list of lines printed, in
order, paired with whether the task panicked (`line.unwrap()` on an Err). -/

def print_thread : List (Except Unit String) → List String × Bool
  | [] => ([], false)
  | .ok l :: rest =>
    let p := print_thread rest
    (l :: p.1, p.2)
  | .error _ :: _ => ([], true)

/-! ### run_game (main.rs lines 104-138) -/

structure Args where
  file_name : String
  mipsy_path : String
  seed : Int

inductive RunError where
  | spawnError (msg : String)
  | noStdin
  | noStdout
  | handshakeError
deriving DecidableEq

/-- The `.context(...)` message attached to a failed `spawn()` call
(main.rs line 111).  It is a fixed string: the failing `mipsy_path` value is
not interpolated into it, and the underlying OS error it wraps does not
carry the path either. -/
def spawnErrorMsg : String :=
  "Failed to spawn mipsy. Try providing the path to mipsy via --mipsy-path /path/to/mipsy."

inductive Event where
  | seedWrite (line : String)
  | captureStartTime
  | startTask (id : Nat)
deriving DecidableEq

/-- Environment oracle for one `run_game` execution: whether `spawn`
succeeds, whether the child exposes stdin/stdout handles, whether the
initial seed write succeeds, and the child's output stream. -/
structure RunEnv where
  spawnOk : Bool
  stdinAvailable : Bool
  stdoutAvailable : Bool
  seedWriteOk : Bool
  childOutput : List (Except Unit String)

/-- Outcome of `run_game`: the error returned (if it returned early), the
ordered trace of the seed write, the `start_time` capture and the three
`scope.spawn` calls (task 0 = output relay, 1 = tick driver, 2 = input
relay), the lines the output relay printed, and whether a task panic was
rethrown.  `panicked = true` records std scoped-thread semantics: a panic in
a scoped thread (here `line.unwrap()` in `print_thread`) is rethrown by
`thread::scope` when it joins, so `run_game` itself panics instead of
reaching `child.wait()` and returning `Ok`. -/
structure RunResult where
  error : Option RunError
  events : List Event
  printed : List String
  panicked : Bool

def run_game (args : Args) (env : RunEnv) : RunResult :=
  if !env.spawnOk then ⟨some (.spawnError spawnErrorMsg), [], [], false⟩
  else if !env.stdinAvailable then ⟨some .noStdin, [], [], false⟩
  else if !env.stdoutAvailable then ⟨some .noStdout, [], [], false⟩
  else if !env.seedWriteOk then ⟨some .handshakeError, [], [], false⟩
  else
    let pr := print_thread env.childOutput
    ⟨none,
     [.seedWrite (toString args.seed ++ "\n"), .captureStartTime,
      .startTask 0, .startTask 1, .startTask 2],
     pr.1, pr.2⟩

/-- C4: the keystroke filter is exactly the case-sensitive set
`{w, a, s, d, q}`: an allowed keystroke is forwarded as that character plus
a newline, every other keystroke (such as `x`, space, a digit, uppercase
`W`) forwards nothing and the loop reads the next keystroke. -/
theorem input_filter_allow_set :
    VALID_CHARS = ['w', 'a', 's', 'd', 'q'] ∧
    (∀ c rest, c ∈ VALID_CHARS →
      input_loop ((c, true) :: rest) = String.mk [c, '\n'] :: input_loop rest) ∧
    (∀ c b rest, c ∉ VALID_CHARS →
      input_loop ((c, b) :: rest) = input_loop rest) ∧
    ('x' ∉ VALID_CHARS ∧ ' ' ∉ VALID_CHARS ∧ '0' ∉ VALID_CHARS ∧
      'W' ∉ VALID_CHARS) := by
  refine ⟨rfl, ?_, ?_, by decide⟩
  · intro c rest h
    simp [input_loop, h]
  · intro c b rest h
    simp [input_loop, h]

/-- Witness for C4 on the keystrokes `w` (forwarded) and `x` (dropped). -/
theorem input_filter_allow_set_witness :
    input_loop [('w', true)] = [String.mk ['w', '\n']] ∧
    input_loop [('x', true)] = [] := by
  constructor
  · rw [input_filter_allow_set.2.1 'w' [] (by decide)]
    rfl
  · rw [input_filter_allow_set.2.2.1 'x' true [] (by decide)]
    rfl

/-- C7: when the forwarding write of an allowed keystroke fails, the input
relay breaks out of its loop at once: nothing is written for that keystroke
or retried, and the remaining schedule contributes no further writes. -/
theorem input_write_failure_stops_loop :
    (∀ c rest, c ∈ VALID_CHARS → input_loop ((c, false) :: rest) = []) ∧
    (∀ xs c rest, c ∈ VALID_CHARS →
      input_loop (xs ++ (c, false) :: rest) = input_loop (xs ++ [(c, false)])) := by
  have hbreak : ∀ c rest, c ∈ VALID_CHARS → input_loop ((c, false) :: rest) = [] := by
    intro c rest h
    simp [input_loop, h]
  refine ⟨hbreak, ?_⟩
  intro xs c rest h
  induction xs with
  | nil => rw [List.nil_append, List.nil_append, hbreak c rest h, hbreak c [] h]
  | cons p xs ih =>
    obtain ⟨c2, ok⟩ := p
    cases ok <;> by_cases hc : c2 ∈ VALID_CHARS <;>
      simp [input_loop, hc, ih]

/-- Witness for C7: a failed write of `w` produces no output and hides the
rest of the schedule. -/
theorem input_write_failure_stops_loop_witness :
    input_loop [('w', false), ('a', true)] = [] :=
  input_write_failure_stops_loop.1 'w' [('a', true)] (by decide)

/-- C9: the tick token is the single ASCII apostrophe, code point 39: on
every iteration observed before liveness becomes true, the tick driver
writes exactly the two bytes 39 (apostrophe) then 10 (newline). -/
theorem tick_token_apostrophe :
    tickWrite = [39, 10] ∧
    ∀ sched : List Bool,
      tick_writes sched =
        List.replicate (sched.takeWhile (fun b => !b)).length tickWrite := by
  refine ⟨rfl, ?_⟩
  intro sched
  induction sched with
  | nil => rfl
  | cons b rest ih =>
    cases b <;> simp [tick_writes, List.takeWhile_cons, List.replicate_succ, ih]

/-- C10: `duration_since(...).unwrap()` panics (modelled as `none`) exactly
when the wall clock reads earlier than `StartTime`; whenever the clock is at
or after `StartTime`, the elapsed value is returned without clamping. -/
theorem clock_backwards_panics :
    (∀ now start : ℝ, now < start → elapsed_since now start = none) ∧
    (∀ now start : ℝ, start ≤ now →
      elapsed_since now start = some (now - start)) := by
  constructor
  · intro now start h
    rw [elapsed_since, if_pos h]
  · intro now start h
    rw [elapsed_since, if_neg (not_lt.mpr h)]

/-- Witness for C10 with the clock one second before / after start. -/
theorem clock_backwards_panics_witness :
    elapsed_since 0 1 = none ∧ elapsed_since 1 0 = some 1 := by
  refine ⟨clock_backwards_panics.1 0 1 (by norm_num), ?_⟩
  have h := clock_backwards_panics.2 1 0 (by norm_num)
  simpa using h

set_option maxRecDepth 4000 in
/-- C5 counterexample: with a nonexistent executable path, `run_game`
returns the spawn error and starts no tasks, but the diagnostic is a fixed
string that does not contain the failing path. -/
theorem spawn_error_counterexample :
    (run_game ⟨"rr.s", "/no/such/mipsy", 1⟩
        ⟨false, true, true, true, []⟩).error =
      some (RunError.spawnError spawnErrorMsg) ∧
    ¬ ("/no/such/mipsy".toList <:+: spawnErrorMsg.toList) ∧
    (run_game ⟨"rr.s", "/no/such/mipsy", 1⟩
        ⟨false, true, true, true, []⟩).events = [] := by
  refine ⟨rfl, by decide, rfl⟩

/-- C5 amended: when the spawn fails, `run_game` returns a spawn error whose
fixed diagnostic names mipsy and the `--mipsy-path` flag (but not the
failing path itself), and no tasks are started. -/
theorem spawn_error_amended (args : Args) (env : RunEnv)
    (h : env.spawnOk = false) :
    (run_game args env).error = some (RunError.spawnError spawnErrorMsg) ∧
    ("--mipsy-path".toList <:+: spawnErrorMsg.toList) ∧
    (run_game args env).events = [] ∧ (run_game args env).printed = [] := by
  refine ⟨?_, by decide, ?_, ?_⟩ <;> simp [run_game, h]

/-- Witness for C5 amended at a concrete failing environment. -/
theorem spawn_error_amended_witness :
    (run_game ⟨"rr.s", "/no/such", 3⟩ ⟨false, true, true, true, []⟩).error =
      some (RunError.spawnError spawnErrorMsg) :=
  (spawn_error_amended ⟨"rr.s", "/no/such", 3⟩
    ⟨false, true, true, true, []⟩ rfl).1

/-- C6: `run_game` writes the seed as a decimal text line before capturing
`StartTime` and before starting any of the three tasks (the event trace
lists them in exactly that order), and a failed seed write yields the
handshake error with no tasks started. -/
theorem seed_handshake (args : Args) (env : RunEnv)
    (hs : env.spawnOk = true) (hi : env.stdinAvailable = true)
    (ho : env.stdoutAvailable = true) :
    (env.seedWriteOk = false →
      (run_game args env).error = some RunError.handshakeError ∧
      (run_game args env).events = []) ∧
    (env.seedWriteOk = true →
      (run_game args env).events =
        [Event.seedWrite (toString args.seed ++ "\n"), Event.captureStartTime,
         Event.startTask 0, Event.startTask 1, Event.startTask 2]) := by
  constructor <;> intro h <;> simp [run_game, hs, hi, ho, h]

/-- Witness for C6: a failed handshake at seed `-7`, and the full ordered
trace at seed `42`. -/
theorem seed_handshake_witness :
    (run_game ⟨"rr.s", "mipsy", -7⟩ ⟨true, true, true, false, []⟩).error =
      some RunError.handshakeError ∧
    (run_game ⟨"rr.s", "mipsy", 42⟩ ⟨true, true, true, true, []⟩).events =
      [Event.seedWrite "42\n", Event.captureStartTime,
       Event.startTask 0, Event.startTask 1, Event.startTask 2] := by
  constructor
  · exact ((seed_handshake ⟨"rr.s", "mipsy", -7⟩
      ⟨true, true, true, false, []⟩ rfl rfl rfl).1 rfl).1
  · have h := (seed_handshake ⟨"rr.s", "mipsy", 42⟩
      ⟨true, true, true, true, []⟩ rfl rfl rfl).2 rfl
    exact h.trans (by decide)

/-- C8 counterexample: on the stream `ok "hello", error, ok "world"` the
relay prints only the lines before the failure, and the resulting panic is
rethrown by the thread scope, so the driver terminates abnormally — the
failure is not confined to the relay task. -/
theorem output_relay_counterexample :
    (run_game ⟨"rr.s", "mipsy", 1⟩
        ⟨true, true, true, true,
          [Except.ok "hello", Except.error (), Except.ok "world"]⟩).printed =
      ["hello"] ∧
    (run_game ⟨"rr.s", "mipsy", 1⟩
        ⟨true, true, true, true,
          [Except.ok "hello", Except.error (), Except.ok "world"]⟩).panicked =
      true :=
  ⟨rfl, rfl⟩

/-- C8 amended: the relay prints every line in order and stops cleanly at
end-of-stream; a decoding error aborts the task at that line (printing the
earlier lines, skipping nothing), and the panic propagates through the
thread scope into `run_game`, whose printed output and panic flag are
exactly the relay's. -/
theorem output_relay_amended :
    (∀ lines : List String,
      print_thread (lines.map Except.ok) = (lines, false)) ∧
    (∀ pre post,
      print_thread (pre.map Except.ok ++ Except.error () :: post) =
        (pre, true)) ∧
    (∀ args env, env.spawnOk = true → env.stdinAvailable = true →
      env.stdoutAvailable = true → env.seedWriteOk = true →
      (run_game args env).printed = (print_thread env.childOutput).1 ∧
      (run_game args env).panicked = (print_thread env.childOutput).2) := by
  refine ⟨?_, ?_, ?_⟩
  · intro lines
    induction lines with
    | nil => rfl
    | cons l rest ih => simp [print_thread, ih]
  · intro pre post
    induction pre with
    | nil => rfl
    | cons l rest ih => simp [print_thread, ih]
  · intro args env hs hi ho hw
    constructor <;> simp [run_game, hs, hi, ho, hw]

/-- Witness for C8 amended on a one-line stream. -/
theorem output_relay_amended_witness :
    print_thread [Except.ok "hello"] = (["hello"], false) ∧
    (run_game ⟨"rr.s", "mipsy", 1⟩
        ⟨true, true, true, true, [Except.ok "hello"]⟩).printed =
      (print_thread [Except.ok "hello"]).1 := by
  constructor
  · have h := output_relay_amended.1 ["hello"]
    simpa using h
  · exact (output_relay_amended.2.2 ⟨"rr.s", "mipsy", 1⟩
      ⟨true, true, true, true, [Except.ok "hello"]⟩ rfl rfl rfl rfl).1

end RailroadRunners
